import Mathlib

/-!
Formal model of the conversation core of the `ollama_assistant` custom
component: the tool dispatcher and validation logic
(`custom_components/ollama_conversation/tools.py`), the Home Assistant
service wrapper (`hass.py`), the VLLM HTTP client and its polymorphic
response decoder (`vllm_api.py`, `response.py`), and the conversation
turn engine (`agent.py`, with message helpers from `helpers.py`).

Python values flowing through JSON payloads are modelled by `JsonVal`;
Python exceptions are modelled by `PyErr`, and fallible code returns
`Except`.  External collaborators (the Home Assistant service bus, the
HTTP transport, `json.loads`, the ULID generator) are passed in as
explicit oracle parameters.
-/

set_option autoImplicit false

/-- A JSON value, as handled by the Python code (dicts are modelled as
insertion-ordered association lists, matching Python dict semantics). -/
inductive JsonVal where
  | str (s : String)
  | num (n : Int)
  | bool (b : Bool)
  | null
  | arr (elems : List JsonVal)
  | obj (fields : List (String × JsonVal))

/-- Python exceptions raised by the modelled code. -/
inductive PyErr where
  | keyError (key : String)
  | typeError
  | attributeError
  | valueError
  | indexError
  | unboundLocalError
  | jsonDecodeError
  /-- Artifact of the client-stream model in `asyncProcess`: the modelled
  LLM client always yields a response, so this is unreachable in the claims. -/
  | clientStreamEmpty
  deriving DecidableEq

/-- Lookup in an insertion-ordered association list, modelling Python
`dict` subscript/get by key. -/
def histLookup {α : Type} : List (String × α) → String → Option α
  | [], _ => none
  | (k, v) :: rest, key => if k = key then some v else histLookup rest key

/-- Python `d[key] = v` on an insertion-ordered dict: replace in place,
or append a fresh binding. -/
def histInsert {α : Type} : List (String × α) → String → α → List (String × α)
  | [], key, v => [(key, v)]
  | (k, w) :: rest, key, v =>
      if k = key then (key, v) :: rest else (k, w) :: histInsert rest key v

/-- Python `"." in entity_id` (tools.py:191 and friends); a single-character
needle makes substring containment the same as character containment. -/
def pyContainsDot (s : String) : Bool :=
  s.toList.contains '.'

/-- Python `entity_id.split(".")[0]` (tools.py:195): the prefix before the
first dot. -/
def domainOf (s : String) : String :=
  String.mk (s.toList.takeWhile (fun c => c ≠ '.'))

/-- The static per-tool allow-list `SUPPORTED_DOMAINS` (tools.py:73-92). -/
def SUPPORTED_DOMAINS : List (String × List String) :=
  [ ("hass_turn_on", ["light", "switch", "fan", "climate", "media_player", "automation", "script", "scene"]),
    ("hass_turn_off", ["light", "switch", "fan", "climate", "media_player", "automation", "script"]),
    ("hass_toggle", ["light", "switch", "fan", "climate", "media_player", "lock", "cover", "automation", "script"]),
    ("hass_open", ["cover"]),
    ("hass_close", ["cover"]),
    ("hass_set_temperature", ["climate"]),
    ("hass_set_humidity", ["climate"]),
    ("hass_set_fan_mode", ["climate"]),
    ("hass_set_hvac_mode", ["climate"]),
    ("hass_set_preset_mode", ["climate"]),
    ("hass_lock", ["lock"]),
    ("hass_unlock", ["lock"]),
    ("hass_vacuum_control", ["vacuum"]),
    ("hass_fan_control", ["fan"]),
    ("hass_media_control", ["media_player"]),
    ("hass_get_agenda", ["calendar"]),
    ("hass_get_calendar_availability", ["calendar"]),
    ("hass_get_calendar_events", ["calendar"]) ]

/-- Source `ToolCallResult` (tools.py:95-142).  `erroredEntityIds` holds lists of
entity ids because `async_call_service` wraps the whole id list into a
one-element list (`error=[entity_ids]`, hass.py:65) and
`add_errored_entity_id` extends with it, so its elements are lists, not
strings. -/
structure ToolCallResult where
  success : Bool
  erroredEntityIds : List (List String)
  missingDomainEntityIds : List String
  incorrectDomainEntityIds : List String
  domainNotSupportedEntityIds : List String
  deriving DecidableEq

/-- Source `ToolCallResult.__init__` (tools.py:98-104). -/
def ToolCallResult.init : ToolCallResult :=
  ⟨false, [], [], [], []⟩

/-- Source `add_errored_entity_id` (tools.py:128-130). -/
def ToolCallResult.addErrored (r : ToolCallResult) (l : List (List String)) : ToolCallResult :=
  { r with erroredEntityIds := r.erroredEntityIds ++ l }

/-- Source `add_missing_domain_entity_id` (tools.py:132-134). -/
def ToolCallResult.addMissingDomain (r : ToolCallResult) (l : List String) : ToolCallResult :=
  { r with missingDomainEntityIds := r.missingDomainEntityIds ++ l }

/-- Source `add_domain_not_supported_entity_id` (tools.py:140-142). -/
def ToolCallResult.addDomainNotSupported (r : ToolCallResult) (l : List String) : ToolCallResult :=
  { r with domainNotSupportedEntityIds := r.domainNotSupportedEntityIds ++ l }

/-- Source `ToolCallResult.__str__` (tools.py:106-126).  When `erroredEntityIds` is
non-empty, Python's `', '.join` is applied to list elements (see
`addErrored`) and raises `TypeError`. -/
def ToolCallResult.toStr (r : ToolCallResult) : Except PyErr String :=
  match r.erroredEntityIds with
  | _ :: _ => .error .typeError
  | [] =>
    let s := if r.success then "Success" else "Failure"
    let s := if r.missingDomainEntityIds.isEmpty then s else
      s ++ ", the following entity IDs are missing a valid domain: " ++
        String.intercalate ", " r.missingDomainEntityIds
    let s := if r.incorrectDomainEntityIds.isEmpty then s else
      s ++ ", the following entity IDs have an incorrect domain: " ++
        String.intercalate ", " r.incorrectDomainEntityIds
    let s := if r.domainNotSupportedEntityIds.isEmpty then s else
      s ++ ", the following entity IDs have a domain that is not supported by this tool: " ++
        String.intercalate ", " r.domainNotSupportedEntityIds
    .ok s

/-- Source `if domain not in domain_entity_map: domain_entity_map[domain] = []`
followed by append (tools.py:201-203), on an insertion-ordered dict. -/
def mapAppend : List (String × List String) → String → String → List (String × List String)
  | [], d, e => [(d, [e])]
  | (d', es) :: rest, d, e =>
      if d' = d then (d', es ++ [e]) :: rest else (d', es) :: mapAppend rest d e

/-- Source `validate_entity_ids` (tools.py:180-203).  The Python function mutates
`domain_entity_map` and `tool_call_result` in place; here the pair is
threaded explicitly.  `SUPPORTED_DOMAINS[tool_name]` raises `KeyError`
for a tool name absent from the table. -/
def validate_entity_ids (entityIds : List String) (toolName : String)
    (dmap : List (String × List String)) (r : ToolCallResult) :
    Except PyErr (List (String × List String) × ToolCallResult) :=
  match entityIds with
  | [] => .ok (dmap, r)
  | entityId :: rest =>
    if ¬ pyContainsDot entityId then
      validate_entity_ids rest toolName dmap (r.addMissingDomain [entityId])
    else
      let domain := domainOf entityId
      match histLookup SUPPORTED_DOMAINS toolName with
      | none => .error (.keyError toolName)
      | some doms =>
        if ¬ doms.contains domain then
          validate_entity_ids rest toolName dmap (r.addDomainNotSupported [entityId])
        else
          validate_entity_ids rest toolName (mapAppend dmap domain entityId) r

/-- Source `HomeAssistantServiceResult` (hass.py:27-38).  A `success` result carries
`error = []` (Python `None`); a failed `async_call_service` carries
`error = [entity_ids]` — the whole id list wrapped in a singleton list. -/
structure HomeAssistantServiceResult where
  success : Bool
  error : List (List String)
  deriving DecidableEq

/-- One invocation of `HomeAssistantService.async_call_service`
(hass.py:45-65): the Action Executor boundary. -/
structure ServiceCall where
  entityIds : List String
  domain : String
  service : String
  data : Option (List (String × JsonVal))

/-- Source `HomeAssistantService.async_call_service` (hass.py:44-65).  Whether the
underlying `hass.services.async_call` raises is an external outcome,
supplied by the oracle `execOk`; on failure the result records
`error=[entity_ids]`. -/
def async_call_service (execOk : ServiceCall → Bool) (c : ServiceCall) :
    HomeAssistantServiceResult :=
  if execOk c then ⟨true, []⟩ else ⟨false, [c.entityIds]⟩

/-- Source `process_service_call_results` (tools.py:206-219): failed calls add
their `error` payload to `errored_entity_ids`, then `success` is set to
the conjunction of the per-call `success` flags — `all` of an empty list
is `True`. -/
def process_service_call_results (results : List HomeAssistantServiceResult)
    (r : ToolCallResult) : ToolCallResult :=
  let r1 := results.foldl
    (fun acc res => if ¬ res.success then acc.addErrored res.error else acc) r
  { r1 with success := results.all (fun res => res.success) }

/-- Source `make_service_call` (tools.py:222-247): validate the entity ids,
invoke the Action Executor once per domain group, aggregate.  The source
returns `str(tool_call_result)`; the structured result and the list of
executor invocations are exposed here (see `make_service_call_str` for
the string form). -/
def make_service_call (execOk : ServiceCall → Bool) (entityIds : List String)
    (service toolName : String) :
    Except PyErr ToolCallResult × List ServiceCall :=
  match validate_entity_ids entityIds toolName [] ToolCallResult.init with
  | .error e => (.error e, [])
  | .ok (dmap, r0) =>
    let calls := dmap.map (fun p => ServiceCall.mk p.2 p.1 service none)
    let results := calls.map (fun c => async_call_service execOk c)
    (.ok (process_service_call_results results r0), calls)

/-- The string actually returned by `make_service_call` (tools.py:247). -/
def make_service_call_str (execOk : ServiceCall → Bool) (entityIds : List String)
    (service toolName : String) : Except PyErr String :=
  match make_service_call execOk entityIds service toolName with
  | (.error e, _) => .error e
  | (.ok r, _) => r.toStr

/-- For a tool name present in `SUPPORTED_DOMAINS`, `validate_entity_ids`
never raises. -/
theorem validate_entity_ids_ok (entityIds : List String) (toolName : String)
    (doms : List String) (h : histLookup SUPPORTED_DOMAINS toolName = some doms) :
    ∀ dmap r, ∃ out, validate_entity_ids entityIds toolName dmap r = .ok out := by
  induction entityIds with
  | nil => intro dmap r; exact ⟨(dmap, r), rfl⟩
  | cons e rest ih =>
    intro dmap r
    unfold validate_entity_ids
    by_cases hd : pyContainsDot e
    · simp only [hd, not_true_eq_false, if_false, h]
      by_cases hs : doms.contains (domainOf e)
      · simp only [hs, not_true_eq_false, if_false]
        exact ih _ _
      · simp only [hs, not_false_eq_true, if_true]
        exact ih _ _
    · simp only [hd, not_false_eq_true, if_true]
      exact ih _ _

/-- The per-call success flag reported by `async_call_service` is exactly
the executor outcome. -/
theorem async_call_service_success (execOk : ServiceCall → Bool) (c : ServiceCall) :
    (async_call_service execOk c).success = execOk c := by
  unfold async_call_service
  by_cases h : execOk c <;> simp [h]

/-- Source `process_service_call_results` sets `success` to the conjunction of
the per-call flags and leaves the validation fields alone. -/
theorem process_service_call_results_success (results : List HomeAssistantServiceResult)
    (r : ToolCallResult) :
    (process_service_call_results results r).success = results.all (fun res => res.success) := by
  rfl

/-- An executor oracle for which every service call succeeds. -/
def execAllOk : ServiceCall → Bool := fun _ => true

/-- C1, counterexample.  Dispatching on `entity_ids = ["bad_id_no_domain"]`
(tools.py:222-247): the id is recorded in the missing-domain set, no
executor call is made, and — contrary to the claim — the overall
`success` flag is `true`, because `process_service_call_results`
(tools.py:218-219) computes `success` as `all` over the (empty) list of
service-call results and never consults the validation-error
categories. -/
theorem c1_counterexample :
    make_service_call execAllOk ["bad_id_no_domain"] "turn_on" "hass_turn_on" =
      (.ok ⟨true, [], ["bad_id_no_domain"], [], []⟩, []) := by
  rfl

/-- C1, amended: the overall `success` flag of the `ToolCallResult`
returned by `make_service_call` is `true` if and only if every per-domain
Action Executor invocation succeeded; the validation-error categories
(missing domain, unsupported domain) do not affect the flag, and with no
valid entity the vacuous conjunction makes `success` true. -/
theorem c1_success_iff_executor_calls (execOk : ServiceCall → Bool)
    (entityIds : List String) (service toolName : String) (doms : List String)
    (h : histLookup SUPPORTED_DOMAINS toolName = some doms) :
    ∃ r calls, make_service_call execOk entityIds service toolName = (.ok r, calls) ∧
      (r.success = true ↔ ∀ c ∈ calls, execOk c = true) := by
  obtain ⟨⟨dmap, r0⟩, hv⟩ := validate_entity_ids_ok entityIds toolName doms h [] ToolCallResult.init
  refine ⟨process_service_call_results
      ((dmap.map (fun p => ServiceCall.mk p.2 p.1 service none)).map
        (fun c => async_call_service execOk c)) r0,
    dmap.map (fun p => ServiceCall.mk p.2 p.1 service none), ?_, ?_⟩
  · unfold make_service_call
    rw [hv]
  · rw [process_service_call_results_success]
    generalize (dmap.map (fun p => ServiceCall.mk p.2 p.1 service none)) = calls
    simp [List.all_eq_true, async_call_service_success]

/-- C1 witness: the amended statement evaluated at a concrete dispatch on
two light entities with an all-succeeding executor. -/
theorem c1_success_iff_executor_calls_witness :
    histLookup SUPPORTED_DOMAINS "hass_turn_on" =
        some ["light", "switch", "fan", "climate", "media_player", "automation", "script", "scene"] ∧
      ∃ r calls,
        make_service_call execAllOk ["light.kitchen", "light.porch"] "turn_on" "hass_turn_on" =
            (.ok r, calls) ∧
          (r.success = true ↔ ∀ c ∈ calls, execAllOk c = true) :=
  ⟨rfl, c1_success_iff_executor_calls execAllOk ["light.kitchen", "light.porch"]
    "turn_on" "hass_turn_on" _ rfl⟩

/-- Source `ThermostatAttributes` (hass.py:13-24), as read back by
`async_get_thermostat_mode` (hass.py:67-79): the state string and the
`target_temp_low` / `target_temp_high` attributes (which may be absent,
i.e. `JsonVal.null`). -/
structure ThermostatAttributes where
  hvac_mode : String
  target_temperature_low : JsonVal
  target_temperature_high : JsonVal

/-- Source `make_service_call_with_data` (tools.py:278-303): single-entity
validation, then one Action Executor invocation carrying a `data`
mapping.  The source returns `str(tool_call_result)`; the executor
invocations made are exposed alongside. -/
def make_service_call_with_data (execOk : ServiceCall → Bool) (entityId service : String)
    (data : List (String × JsonVal)) (toolName : String) :
    Except PyErr String × List ServiceCall :=
  if ¬ pyContainsDot entityId then
    ((ToolCallResult.init.addMissingDomain [entityId]).toStr, [])
  else
    let domain := domainOf entityId
    match histLookup SUPPORTED_DOMAINS toolName with
    | none => (.error (.keyError toolName), [])
    | some doms =>
      if ¬ doms.contains domain then
        ((ToolCallResult.init.addDomainNotSupported [entityId]).toStr, [])
      else
        let call : ServiceCall := ⟨[entityId], domain, service, some data⟩
        let result := async_call_service execOk call
        ((process_service_call_results [result] ToolCallResult.init).toStr, [call])

/-- Source `hass_set_temperature` (tools.py:591-649).  The current thermostat
attributes are an oracle (`readAttrs`, the value returned by
`async_get_thermostat_mode`).  The temperature is an integer-valued
number; no arithmetic is performed on it, it is passed through verbatim.
In the `off` branch the source assigns the *string* returned by
`make_service_call` to `result` and then reads `result.success`
(tools.py:620-622), which raises `AttributeError`. -/
def hass_set_temperature (execOk : ServiceCall → Bool) (readAttrs : ThermostatAttributes)
    (entityId : String) (temperature : Int) :
    Except PyErr String × List ServiceCall :=
  if temperature < 0 then (.error .valueError, [])
  else
    let attrs := readAttrs
    if attrs.hvac_mode = "off" then
      match make_service_call execOk [entityId] "turn_on" "hass_turn_on" with
      | (.error e, calls) => (.error e, calls)
      | (.ok r, calls) =>
        match r.toStr with
        | .error e => (.error e, calls)
        | .ok _ => (.error .attributeError, calls)
    else if attrs.hvac_mode = "auto" ∨ attrs.hvac_mode = "heat_cool" then
      make_service_call_with_data execOk entityId "set_temperature"
        [("target_temp_low", attrs.target_temperature_low),
         ("target_temp_high", .num temperature)] "hass_set_temperature"
    else if attrs.hvac_mode = "heat" ∨ attrs.hvac_mode = "cool" then
      make_service_call_with_data execOk entityId "set_temperature"
        [("temperature", .num temperature)] "hass_set_temperature"
    else
      (.ok "Something went wrong", [])

/-- C8: a composite set-temperature call on a climate device in a
dual-setpoint mode (`auto` or `heat_cool`) sends exactly one
`set_temperature` service call whose `target_temp_low` is exactly the
value previously read from the device and whose `target_temp_high` is
the newly requested temperature (tools.py:628-637): only the targeted
bound changes, the other bound is preserved as read. -/
theorem c8_dual_setpoint_preserves_low (execOk : ServiceCall → Bool)
    (readAttrs : ThermostatAttributes) (entityId : String) (temperature : Int)
    (hmode : readAttrs.hvac_mode = "auto" ∨ readAttrs.hvac_mode = "heat_cool")
    (htemp : 0 ≤ temperature)
    (hdot : pyContainsDot entityId = true)
    (hdom : domainOf entityId = "climate") :
    (hass_set_temperature execOk readAttrs entityId temperature).2 =
      [⟨[entityId], "climate", "set_temperature",
        some [("target_temp_low", readAttrs.target_temperature_low),
              ("target_temp_high", .num temperature)]⟩] := by
  have hoff : ¬ readAttrs.hvac_mode = "off" := by
    rcases hmode with hm | hm <;> simp [hm]
  have hlt : ¬ temperature < 0 := not_lt.mpr htemp
  unfold hass_set_temperature
  rw [if_neg hlt, if_neg hoff, if_pos hmode]
  unfold make_service_call_with_data
  rw [hdot]
  simp only [not_true_eq_false, if_false, hdom]
  rfl

/-- C8 witness: a concrete thermostat in `auto` mode with a previously
read low bound of 68; setting temperature 72 sends exactly
`{target_temp_low: 68, target_temp_high: 72}`. -/
theorem c8_dual_setpoint_preserves_low_witness :
    ((⟨"auto", .num 68, .num 70⟩ : ThermostatAttributes).hvac_mode = "auto" ∨
        (⟨"auto", .num 68, .num 70⟩ : ThermostatAttributes).hvac_mode = "heat_cool") ∧
      (0 : Int) ≤ 72 ∧ pyContainsDot "climate.living_room" = true ∧
      domainOf "climate.living_room" = "climate" ∧
      (hass_set_temperature execAllOk ⟨"auto", .num 68, .num 70⟩ "climate.living_room" 72).2 =
        [⟨["climate.living_room"], "climate", "set_temperature",
          some [("target_temp_low", .num 68), ("target_temp_high", .num 72)]⟩] :=
  ⟨Or.inl rfl, by decide, rfl, rfl,
    c8_dual_setpoint_preserves_low execAllOk ⟨"auto", .num 68, .num 70⟩
      "climate.living_room" 72 (Or.inl rfl) (by decide) rfl rfl⟩

/-- Source `VllmModel` (response.py:4-14).  Python never checks the type of the
`id` value, so it is kept as a `JsonVal`. -/
structure VllmModel where
  model_id : JsonVal

/-- Source `VllmChatApiResponse` (response.py:17-40). -/
structure VllmChatApiResponse where
  message : JsonVal
  tool_call_id : JsonVal
  tool_calls : JsonVal

/-- Source `VllmModelsApiResponse` (response.py:43-62). -/
structure VllmModelsApiResponse where
  models : List VllmModel

/-- The union type returned by `VllmApiResponseDecoder.decode`
(response.py:69): exactly one of the two response shapes. -/
inductive VllmApiResponse where
  | chat (r : VllmChatApiResponse)
  | models (r : VllmModelsApiResponse)

/-- Python `response[key]` subscript on a JSON value: `KeyError` when the
key is absent, `TypeError` on a non-mapping. -/
def pySubscript (v : JsonVal) (key : String) : Except PyErr JsonVal :=
  match v with
  | .obj fields =>
    match histLookup fields key with
    | some w => .ok w
    | none => .error (.keyError key)
  | _ => .error .typeError

/-- Python `v[0]` on a JSON value: `IndexError` on an empty list,
`TypeError` on a non-sequence. -/
def pyIndexZero (v : JsonVal) : Except PyErr JsonVal :=
  match v with
  | .arr (x :: _) => .ok x
  | .arr [] => .error .indexError
  | _ => .error .typeError

/-- The loop body of `_contains_model_object` (response.py:107-109):
`model.get("object") == "model"` over the entries of `data`; `.get` on a
non-mapping entry raises `AttributeError`. -/
def anyModelTag : List JsonVal → Except PyErr Bool
  | [] => .ok false
  | .obj fields :: rest =>
    match histLookup fields "object" with
    | some (.str s) => if s = "model" then .ok true else anyModelTag rest
    | _ => anyModelTag rest
  | _ :: _ => .error .attributeError

/-- Source `VllmApiResponseDecoder._contains_model_object` (response.py:93-110):
the payload is a mapping with a `"data"` collection one of whose entries
tags itself `"object": "model"`.  Iterating a non-list `"data"` value is
a Python runtime error (modelled as `TypeError`). -/
def contains_model_object (response : JsonVal) : Except PyErr Bool :=
  match response with
  | .obj fields =>
    match histLookup fields "data" with
    | some (.arr entries) => anyModelTag entries
    | some _ => .error .typeError
    | none => .ok false
  | _ => .ok false

/-- Source `VllmApiResponseDecoder._contains_chat_completion_object`
(response.py:112-126): a top-level `"object": "chat.completion"` tag. -/
def contains_chat_completion_object (response : JsonVal) : Bool :=
  match response with
  | .obj fields =>
    match histLookup fields "object" with
    | some (.str s) => s = "chat.completion"
    | _ => false
  | _ => false

/-- The comprehension `[VllmModel(model_id=model["id"]) for model in data]`
(response.py:80-82): every entry must be a mapping carrying an `"id"`
key, otherwise `KeyError`/`TypeError`. -/
def decodeModelEntries : List JsonVal → Except PyErr (List VllmModel)
  | [] => .ok []
  | .obj fields :: rest =>
    match histLookup fields "id" with
    | some v => (decodeModelEntries rest).map (fun ms => ⟨v⟩ :: ms)
    | none => .error (.keyError "id")
  | _ :: _ => .error .typeError

/-- The chat-completion branch of `decode` (response.py:84-89): the
extraction chain `response["choices"][0]["message"]` subscripted with
`content`, `tool_call_id` and `tool_calls`, in Python evaluation order. -/
def decodeChat (response : JsonVal) : Except PyErr VllmApiResponse :=
  match pySubscript response "choices" with
  | .error e => .error e
  | .ok choices =>
    match pyIndexZero choices with
    | .error e => .error e
    | .ok first =>
      match pySubscript first "message" with
      | .error e => .error e
      | .ok message =>
        match pySubscript message "content" with
        | .error e => .error e
        | .ok content =>
          match pySubscript message "tool_call_id" with
          | .error e => .error e
          | .ok toolCallId =>
            match pySubscript message "tool_calls" with
            | .error e => .error e
            | .ok toolCalls => .ok (.chat ⟨content, toolCallId, toolCalls⟩)

/-- Source `VllmApiResponseDecoder.decode` (response.py:68-91): the model-list
shape is tested first; then the chat-completion shape; any other payload
raises `ValueError`. -/
def decode (response : JsonVal) : Except PyErr VllmApiResponse :=
  match contains_model_object response with
  | .error e => .error e
  | .ok true =>
    match response with
    | .obj fields =>
      match histLookup fields "data" with
      | some (.arr entries) =>
        match decodeModelEntries entries with
        | .error e => .error e
        | .ok ms => .ok (.models ⟨ms⟩)
      | _ => .error .typeError
    | _ => .error .typeError
  | .ok false =>
    if contains_chat_completion_object response then decodeChat response
    else .error .valueError

/-- C3, counterexample.  A chat-completion payload whose
`choices[0].message` carries `content = "hi"` and no `tool_calls` does
not decode: `VllmApiResponseDecoder.decode` (response.py:85-89)
unconditionally subscripts `message["tool_call_id"]` and
`message["tool_calls"]`, so the decode raises `KeyError` instead of
returning a `ChatResponse`. -/
theorem c3_counterexample :
    decode (.obj [("object", .str "chat.completion"),
      ("choices", .arr [.obj [("message", .obj [("content", .str "hi")])]])]) =
      .error (.keyError "tool_call_id") := by
  rfl

/-- C3, amended: decoding the chat-completion shape requires
`choices[0].message` to carry `tool_call_id` and `tool_calls` keys in
addition to `content`; when they are present (here `tool_call_id = null`,
`tool_calls = []`) a payload with `content = "hi"` decodes to a
`ChatResponse` with message `"hi"` and empty tool_calls. -/
theorem c3_decode_with_required_keys :
    decode (.obj [("object", .str "chat.completion"),
      ("choices", .arr [.obj [("message", .obj [("content", .str "hi"),
        ("tool_call_id", .null), ("tool_calls", .arr [])])]])]) =
      .ok (.chat ⟨.str "hi", .null, .arr []⟩) := by
  rfl

/-- C10: decoder precedence.  (a) For every payload that passes the
model-list shape test, a successful `decode` is always a
`ModelListResponse` and never a `ChatResponse` — the model-list shape is
checked first (response.py:79-83), even when the payload also carries the
top-level `"object": "chat.completion"` tag.  (b) Every `decode` call
yields exactly one of the two response types or fails. -/
theorem c10_model_list_precedence (p : JsonVal)
    (h1 : contains_model_object p = .ok true) :
    (∀ r, decode p = .ok r → ∃ ms, r = .models ms) ∧
      (∀ q : JsonVal, (∃ ms, decode q = .ok (.models ms)) ∨
        (∃ ch, decode q = .ok (.chat ch)) ∨ (∃ e, decode q = .error e)) := by
  constructor
  · intro r hr
    unfold decode at hr
    rw [h1] at hr
    dsimp only at hr
    cases p with
    | obj fields =>
      dsimp only at hr
      cases hd : histLookup fields "data" with
      | none => rw [hd] at hr; simp at hr
      | some v =>
        rw [hd] at hr
        cases v with
        | arr entries =>
          dsimp only at hr
          cases hm : decodeModelEntries entries with
          | error e => rw [hm] at hr; simp at hr
          | ok ms =>
            rw [hm] at hr
            dsimp only at hr
            cases hr
            exact ⟨_, rfl⟩
        | str s => simp at hr
        | num n => simp at hr
        | bool b => simp at hr
        | null => simp at hr
        | obj o => simp at hr
    | str s => simp at hr
    | num n => simp at hr
    | bool b => simp at hr
    | null => simp at hr
    | arr a => simp at hr
  · intro q
    match h : decode q with
    | .ok (.models ms) => exact Or.inl ⟨ms, rfl⟩
    | .ok (.chat ch) => exact Or.inr (Or.inl ⟨ch, rfl⟩)
    | .error e => exact Or.inr (Or.inr ⟨e, rfl⟩)

/-- C10 witness: a payload that satisfies both shape tests (a tagged model
entry under `data` and a top-level `chat.completion` tag) decodes to the
model-list response. -/
theorem c10_model_list_precedence_witness :
    contains_model_object (.obj [("object", .str "chat.completion"),
        ("data", .arr [.obj [("object", .str "model"), ("id", .str "m1")]]),
        ("choices", .arr [.obj [("message", .obj [("content", .str "hi"),
          ("tool_call_id", .null), ("tool_calls", .arr [])])]])]) = .ok true ∧
      contains_chat_completion_object (.obj [("object", .str "chat.completion"),
        ("data", .arr [.obj [("object", .str "model"), ("id", .str "m1")]]),
        ("choices", .arr [.obj [("message", .obj [("content", .str "hi"),
          ("tool_call_id", .null), ("tool_calls", .arr [])])]])]) = true ∧
      (∀ r, decode (.obj [("object", .str "chat.completion"),
        ("data", .arr [.obj [("object", .str "model"), ("id", .str "m1")]]),
        ("choices", .arr [.obj [("message", .obj [("content", .str "hi"),
          ("tool_call_id", .null), ("tool_calls", .arr [])])]])]) = .ok r →
        ∃ ms, r = .models ms) ∧
      (∀ q : JsonVal, (∃ ms, decode q = .ok (.models ms)) ∨
        (∃ ch, decode q = .ok (.chat ch)) ∨ (∃ e, decode q = .error e)) :=
  ⟨rfl, rfl,
    (c10_model_list_precedence (.obj [("object", .str "chat.completion"),
        ("data", .arr [.obj [("object", .str "model"), ("id", .str "m1")]]),
        ("choices", .arr [.obj [("message", .obj [("content", .str "hi"),
          ("tool_call_id", .null), ("tool_calls", .arr [])])]])]) rfl).1,
    (c10_model_list_precedence (.obj [("object", .str "chat.completion"),
        ("data", .arr [.obj [("object", .str "model"), ("id", .str "m1")]]),
        ("choices", .arr [.obj [("message", .obj [("content", .str "hi"),
          ("tool_call_id", .null), ("tool_calls", .arr [])])]])]) rfl).2⟩

/-- Modelled from the spec: the exception classes of the repository's
`exceptions.py` are not under src/ (only their imports and the catch
clauses are).  The spec's §3/§7 error taxonomy gives four LLM-client
error kinds — transport (`ApiCommError`), timeout (`ApiTimeoutError`),
protocol JSON envelope (`ApiJsonError`, carrying the embedded payload)
and the generic catch-all (`ApiClientError`) — all caught at the
Conversation Engine boundary. -/
inductive ApiError where
  | commError
  | timeoutError
  | jsonError (payload : JsonVal)
  | clientError

/-- One outcome of the HTTP transport underlying `_api_wrapper`
(vllm_api.py:80-86): a response with a status code and a body (`none`
when the body is not JSON-decodable), a timeout, a connection-level
error, or some other unexpected failure. -/
inductive TransportOutcome where
  | resp (status : Nat) (body : Option JsonVal)
  | timeout
  | connError
  | otherFailure

/-- Source `VllmApiClient._api_wrapper` (vllm_api.py:70-105).  A 404 is decoded
and re-raised as `ApiJsonError(json["error"])`; a missing `"error"` key
falls through to the generic `except Exception` and becomes
`ApiClientError`; `raise_for_status` on another non-success status raises
an `aiohttp.ClientError`, which the wrapper converts to `ApiCommError`;
timeouts become `ApiTimeoutError`; connection errors become
`ApiCommError`; a non-JSON body raises an `aiohttp` content-type error
(an `aiohttp.ClientError`), hence `ApiCommError`. -/
def api_wrapper (t : TransportOutcome) : Except ApiError JsonVal :=
  match t with
  | .timeout => .error .timeoutError
  | .connError => .error .commError
  | .otherFailure => .error .clientError
  | .resp status body =>
    if status = 404 then
      match body with
      | none => .error .commError
      | some (.obj fields) =>
        match histLookup fields "error" with
        | some payload => .error (.jsonError payload)
        | none => .error .clientError
      | some _ => .error .clientError
    else if 400 ≤ status then .error .commError
    else
      match body with
      | some j => .ok j
      | none => .error .commError

/-- A failure of the VLLM client: either one of the wrapped API errors or
a Python exception escaping the decode step (which runs outside the
`try` of `_api_wrapper`). -/
inductive ClientFailure where
  | api (e : ApiError)
  | py (e : PyErr)

/-- Source `VllmApiClient.async_get_models` (vllm_api.py:42-52): fetch
`/v1/models` and decode.  The type annotation on `decoded_response` is
not enforced by Python, so the decoded value may be either response
shape. -/
def async_get_models (t : TransportOutcome) : Except ClientFailure VllmApiResponse :=
  match api_wrapper t with
  | .error e => .error (.api e)
  | .ok body =>
    match decode body with
    | .error e => .error (.py e)
    | .ok r => .ok r

/-- Source `VllmApiClient.async_get_heartbeat` (vllm_api.py:37-40):
`len(response.models) > 0`.  Errors from `async_get_models` propagate —
there is no `try` in the heartbeat — and a chat-shaped decode has no
`.models` attribute (`AttributeError`). -/
def async_get_heartbeat (t : TransportOutcome) : Except ClientFailure Bool :=
  match async_get_models t with
  | .error e => .error e
  | .ok (.models m) => .ok (decide (0 < m.models.length))
  | .ok (.chat _) => .error (.py .attributeError)

/-- C4, counterexample.  When the transport raises a connection error,
`async_get_heartbeat` does not return `false`: the `ApiCommError` raised
by `_api_wrapper` (vllm_api.py:101-103) propagates out of the heartbeat,
which has no exception handling of its own (vllm_api.py:37-40). -/
theorem c4_counterexample :
    async_get_heartbeat .connError = .error (.api .commError) := by
  rfl

/-- C4, amended: `heartbeat()` returns a boolean only when the model-list
call succeeds and decodes to the model-list shape, and then it is `true`
exactly when at least one model is listed; every client-side error —
including a transport connection error — propagates as a raised
exception (converted to a setup failure at the call site in
`__init__.py`), rather than being returned as `false`. -/
theorem c4_heartbeat_models_iff (body : JsonVal) (ms : VllmModelsApiResponse)
    (h : decode body = .ok (.models ms)) :
    (async_get_heartbeat (.resp 200 (some body)) = .ok true ↔ ms.models ≠ []) ∧
      (async_get_heartbeat (.resp 200 (some body)) = .ok false ↔ ms.models = []) ∧
      async_get_heartbeat .connError = .error (.api .commError) := by
  have hm : async_get_models (.resp 200 (some body)) = .ok (.models ms) := by
    show (match decode body with
      | .error e => .error (.py e)
      | .ok r => .ok r : Except ClientFailure VllmApiResponse) = .ok (.models ms)
    rw [h]
  have hh : async_get_heartbeat (.resp 200 (some body)) =
      .ok (decide (0 < ms.models.length)) := by
    unfold async_get_heartbeat
    rw [hm]
  refine ⟨?_, ?_, rfl⟩
  · rw [hh]
    simp only [Except.ok.injEq, decide_eq_true_eq]
    exact List.length_pos
  · rw [hh]
    simp only [Except.ok.injEq, decide_eq_false_iff_not, not_lt, Nat.le_zero,
      List.length_eq_zero]

/-- C4 witness: a concrete model-list body with one model; the heartbeat
returns `true`, and the connection-error case raises. -/
theorem c4_heartbeat_models_iff_witness :
    decode (.obj [("data", .arr [.obj [("object", .str "model"), ("id", .str "m1")]])]) =
        .ok (.models ⟨[⟨.str "m1"⟩]⟩) ∧
      ((async_get_heartbeat (.resp 200 (some (.obj [("data",
          .arr [.obj [("object", .str "model"), ("id", .str "m1")]])]))) = .ok true ↔
          ([⟨.str "m1"⟩] : List VllmModel) ≠ []) ∧
        (async_get_heartbeat (.resp 200 (some (.obj [("data",
          .arr [.obj [("object", .str "model"), ("id", .str "m1")]])]))) = .ok false ↔
          ([⟨.str "m1"⟩] : List VllmModel) = []) ∧
        async_get_heartbeat .connError = .error (.api .commError)) :=
  ⟨rfl, c4_heartbeat_models_iff
    (.obj [("data", .arr [.obj [("object", .str "model"), ("id", .str "m1")]])])
    ⟨[⟨.str "m1"⟩]⟩ rfl⟩

/-- A message in the per-session history.  The helpers of `helpers.py`
build Python dicts; `coroutine` stands for the un-awaited
`_handle_tool_call` coroutine object that `async_process` appends to
`messages` at agent.py:107. -/
inductive HaMsg where
  | dict (fields : List (String × JsonVal))
  | coroutine

/-- Source `system_message` (helpers.py:57-62). -/
def system_message (systemPrompt : String) : HaMsg :=
  .dict [("role", .str "system"), ("content", .str systemPrompt)]

/-- Source `user_message` (helpers.py:65-70). -/
def user_message (userInput : String) : HaMsg :=
  .dict [("role", .str "user"), ("content", .str userInput)]

/-- Source `assistant_message` (helpers.py:73-78).  The content is whatever
value `async_process` passes (Python does not enforce the `str`
annotation). -/
def assistant_message (assistantResponse : JsonVal) : HaMsg :=
  .dict [("role", .str "assistant"), ("content", assistantResponse)]

/-- Source `tool_message` (helpers.py:81-88): three required positional
parameters.  `TOOL_CALL_ID_KEY` is imported from `const.py`, which under
src/ lacks it; modelled from the spec, whose Message model names the
field `tool_call_id`. -/
def tool_message (toolCallId toolName toolResponse : String) : HaMsg :=
  .dict [("role", .str "tool"), ("name", .str toolName),
         ("content", .str toolResponse), ("tool_call_id", .str toolCallId)]

/-- Source `assistant_tool_call_message` (helpers.py:91-96). -/
def assistant_tool_call_message (toolCall : JsonVal) : HaMsg :=
  .dict [("role", .str "assistant"), ("tool_calls", .arr [toolCall])]

/-- The invocation of a tool function (`await tool_function(self.hass,
**tool_args)`, agent.py:186): its name and the keyword-argument mapping
it received. -/
structure ToolInvocation where
  name : String
  args : List (String × JsonVal)

/-- Source `OllamaAgent._handle_tool_call` (agent.py:173-192), the body of the
coroutine.  `jsonLoads` is the external `json.loads`; `registry` is the
module-global namespace lookup `globals().get(tool_name)` with the bound
tool function abstracted as an args-to-result function.  String
arguments are parsed first (agent.py:179-180); a parse failure raises
`json.JSONDecodeError`, uncaught.  Both branches then call
`tool_message` with two positional arguments (agent.py:188, 190) where
`helpers.tool_message` requires three, raising `TypeError`.  The pair
also records the tool invocations performed. -/
def handle_tool_call (jsonLoads : String → Except Unit JsonVal)
    (registry : String → Option (List (String × JsonVal) → String))
    (toolCall : JsonVal) : Except PyErr HaMsg × List ToolInvocation :=
  match toolCall with
  | .obj tcFields =>
    let tool := (histLookup tcFields "function").getD (.obj [])
    match tool with
    | .obj toolFields =>
      let toolNameVal := (histLookup toolFields "name").getD (.str "")
      let toolArgs := (histLookup toolFields "arguments").getD (.obj [])
      let parsed : Except PyErr JsonVal :=
        match toolArgs with
        | .str s =>
          match jsonLoads s with
          | .ok v => .ok v
          | .error _ => .error .jsonDecodeError
        | v => .ok v
      match parsed with
      | .error e => (.error e, [])
      | .ok args =>
        let nameStr : Option String :=
          match toolNameVal with
          | .str s => some s
          | _ => none
        match nameStr with
        | some n =>
          match registry n with
          | some fn =>
            match args with
            | .obj argFields =>
              let _result := fn argFields
              (.error .typeError, [⟨n, argFields⟩])
            | _ => (.error .typeError, [])
          | none => (.error .typeError, [])
        | none => (.error .typeError, [])
    | _ => (.error .attributeError, [])
  | _ => (.error .attributeError, [])

/-- The fixed texts set on the error responses (agent.py:210, 222, 234). -/
def templateErrorText : String :=
  "I had a problem with my system prompt, please check the logs for more information."

/-- See `templateErrorText`. -/
def apiErrorText : String := "There was an error communicating with the API."

/-- See `templateErrorText`. -/
def haErrorText : String := "There was an error communicating with Home Assistant."

/-- The outward result of a turn: either speech or an error response
(`intent_response.async_set_speech` / `async_set_error`). -/
inductive IntentOut where
  | speech (content : JsonVal)
  | errorText (msg : String)

/-- The `ConversationResult` of a turn: the intent response plus the
conversation id. -/
structure ProcResult where
  intent : IntentOut
  conversationId : String

/-- The observable outcome of one `async_process` call: the returned (or
raised) result, the persisted history map afterwards, and how many times
the LLM client was invoked. -/
structure ProcOut where
  result : Except PyErr ProcResult
  history : List (String × List HaMsg)
  submissions : Nat

/-- Source `OllamaAgent.async_process` (agent.py:69-127) with
`_get_conversation_history` (agent.py:194-202) inlined.

Oracles: `promptOutcome` is the template render of
`_async_generate_prompt` (a `TemplateError` is modelled as `.error ()`);
`client` is the stream of outcomes the LLM client would return on
successive `query` calls (the code makes at most one); `genUlid` the
value `ulid.ulid()` would generate.

Python list aliasing: for a known conversation id, `messages` *is* the
stored list, so appends are visible in `self.history` even on paths that
never execute the assignment at agent.py:121; for a fresh id the local
list is only stored by that assignment.

On a response carrying a non-empty `tool_calls` list, the loop body
(agent.py:100-109) appends the assistant tool-call message and the
un-awaited `_handle_tool_call` coroutine object, then raises
`AttributeError` at `tool_call_response.get("content", "")`
(agent.py:109) — a coroutine has no `get`.  With an empty `tool_calls`
list the loop never runs and `assistant_response` is unbound at
agent.py:115 (`UnboundLocalError`).  A non-list `tool_calls` value is a
Python runtime error at the `for` (modelled as `TypeError`). -/
def async_process (promptOutcome : Except Unit String)
    (client : List (Except ApiError JsonVal)) (genUlid : String)
    (history : List (String × List HaMsg))
    (conversationIdIn : Option String) (text : String) : ProcOut :=
  let stored : Option (String × List HaMsg) :=
    match conversationIdIn with
    | some cid =>
      match histLookup history cid with
      | some ms => some (cid, ms)
      | none => none
    | none => none
  let conversationId :=
    match stored with
    | some (cid, _) => cid
    | none => genUlid
  let messages0 :=
    match stored with
    | some (_, ms) => ms
    | none => []
  let known := stored.isSome
  let persistMut := fun (msgs : List HaMsg) =>
    if known then histInsert history conversationId msgs else history
  match (if messages0.isEmpty then
      (match promptOutcome with
        | .error _ => none
        | .ok p => some (messages0 ++ [system_message p]))
    else some messages0) with
  | none =>
    { result := .ok ⟨.errorText templateErrorText, conversationId⟩,
      history := history, submissions := 0 }
  | some base =>
    let afterUser := base ++ [user_message text]
    match client with
    | [] =>
      { result := .error .clientStreamEmpty, history := persistMut afterUser,
        submissions := 0 }
    | outcome :: _ =>
      match outcome with
      | .error e =>
        let txt :=
          match e with
          | .clientError => haErrorText
          | _ => apiErrorText
        { result := .ok ⟨.errorText txt, conversationId⟩,
          history := persistMut afterUser, submissions := 1 }
      | .ok resp =>
        match resp with
        | .obj respFields =>
          let assistantResponseMessage := (histLookup respFields "message").getD (.obj [])
          match assistantResponseMessage with
          | .obj msgFields =>
            if (histLookup msgFields "tool_calls").isSome then
              match (histLookup msgFields "tool_calls").getD (.arr []) with
              | .arr [] =>
                { result := .error .unboundLocalError,
                  history := persistMut afterUser, submissions := 1 }
              | .arr (tc :: _) =>
                let afterToolCall :=
                  afterUser ++ [assistant_tool_call_message tc, HaMsg.coroutine]
                { result := .error .attributeError,
                  history := persistMut afterToolCall, submissions := 1 }
              | _ =>
                { result := .error .typeError,
                  history := persistMut afterUser, submissions := 1 }
            else
              let content := (histLookup msgFields "content").getD (.str "")
              let finalMessages := afterUser ++ [assistant_message content]
              { result := .ok ⟨.speech content, conversationId⟩,
                history := histInsert history conversationId finalMessages,
                submissions := 1 }
          | _ =>
            { result := .error .typeError,
              history := persistMut afterUser, submissions := 1 }
        | _ =>
          { result := .error .attributeError,
            history := persistMut afterUser, submissions := 1 }

/-- A message whose `role` field is `"assistant"`. -/
def isAssistantMsg : HaMsg → Bool
  | .dict fields =>
    match histLookup fields "role" with
    | some (.str r) => r = "assistant"
    | _ => false
  | .coroutine => false

/-- Number of assistant-role messages in a history. -/
def countAssistant (msgs : List HaMsg) : Nat :=
  msgs.countP isAssistantMsg

theorem countAssistant_append (a b : List HaMsg) :
    countAssistant (a ++ b) = countAssistant a + countAssistant b :=
  List.countP_append _ _ _

theorem histLookup_insert_self {α : Type} (l : List (String × α)) (k : String) (v : α) :
    histLookup (histInsert l k v) k = some v := by
  induction l with
  | nil => simp [histInsert, histLookup]
  | cons p rest ih =>
    obtain ⟨k', w⟩ := p
    by_cases hk : k' = k <;> simp [histInsert, histLookup, hk, ih]

theorem histLookup_insert_ne {α : Type} (l : List (String × α)) (k k' : String) (v : α)
    (h : k' ≠ k) : histLookup (histInsert l k v) k' = histLookup l k' := by
  induction l with
  | nil => simp [histInsert, histLookup, Ne.symm h]
  | cons p rest ih =>
    obtain ⟨k'', w⟩ := p
    by_cases hk : k'' = k
    · subst hk
      simp [histInsert, histLookup, Ne.symm h]
    · by_cases hk2 : k'' = k' <;> simp [histInsert, histLookup, hk, hk2, ih, h]

/-- C2, failing input.  A first model response carrying one tool call,
with a further tool-call-free response available from the client: the
turn makes exactly one LLM submission — `async_process` contains no
resolution loop, the updated history is never re-submitted — and instead
of terminating on a tool-call-free response, the turn raises
`AttributeError`, because `_handle_tool_call` is called without `await`
(agent.py:105) and the resulting coroutine object has no `.get`
(agent.py:109). -/
theorem c2_single_submission_crash :
    (async_process (.ok "system prompt")
      [.ok (.obj [("message", .obj [("tool_calls",
          .arr [.obj [("function", .obj [("name", .str "hass_turn_on"),
            ("arguments", .obj [("entity_ids", .arr [.str "light.kitchen"])])])]])])]),
       .ok (.obj [("message", .obj [("content", .str "The light is on.")])])]
      "01TESTULID" [] none "turn on the kitchen light").submissions = 1 ∧
    (async_process (.ok "system prompt")
      [.ok (.obj [("message", .obj [("tool_calls",
          .arr [.obj [("function", .obj [("name", .str "hass_turn_on"),
            ("arguments", .obj [("entity_ids", .arr [.str "light.kitchen"])])])]])])]),
       .ok (.obj [("message", .obj [("content", .str "The light is on.")])])]
      "01TESTULID" [] none "turn on the kitchen light").result = .error .attributeError :=
  ⟨rfl, rfl⟩

/-- C6: for a tool call whose name is not in the registry, no tool
function is invoked (the recorded invocation list is empty) — but
instead of appending a "tool not found" tool message and continuing,
the handler raises `TypeError`: `tool_message(tool_name, "Tool not
found")` (agent.py:190) passes two positional arguments to
`helpers.tool_message`, which requires three (helpers.py:81).  The turn
does not continue. -/
theorem c6_unregistered_tool_not_invoked (jsonLoads : String → Except Unit JsonVal)
    (registry : String → Option (List (String × JsonVal) → String))
    (n : String) (argFields : List (String × JsonVal))
    (h : registry n = none) :
    handle_tool_call jsonLoads registry
      (.obj [("function", .obj [("name", .str n), ("arguments", .obj argFields)])]) =
      (.error .typeError, []) := by
  simp [handle_tool_call, histLookup, h]

/-- C6 witness: a concrete unregistered tool name. -/
theorem c6_unregistered_tool_not_invoked_witness :
    ((fun _ : String => (none : Option (List (String × JsonVal) → String))) "no_such_tool"
        = none) ∧
      handle_tool_call (fun _ => .error ()) (fun _ => none)
        (.obj [("function", .obj [("name", .str "no_such_tool"),
          ("arguments", .obj [])])]) = (.error .typeError, []) :=
  ⟨rfl, c6_unregistered_tool_not_invoked (fun _ => .error ()) (fun _ => none)
    "no_such_tool" [] rfl⟩

/-- C9, counterexample.  A tool call whose arguments arrive as the
malformed JSON string `"not json"`: `json.loads` raises
`json.JSONDecodeError`, which `_handle_tool_call` does not catch
(agent.py:179-180) — the result is a crash of the handler, not a
recovered validation failure, and no tool is invoked. -/
theorem c9_counterexample :
    handle_tool_call (fun _ => .error ()) (fun _ => none)
      (.obj [("function", .obj [("name", .str "hass_turn_on"),
        ("arguments", .str "not json")])]) =
      (.error .jsonDecodeError, []) := by
  rfl

/-- C9, amended: arguments arriving as a JSON-encoded string are parsed
into a structured object before use — a registered tool function
receives the parsed object, never the raw string — while a malformed
JSON argument string raises an uncaught `JSONDecodeError` (a crash of
the turn, not a recovered validation failure). -/
theorem c9_parse_before_use (jsonLoads : String → Except Unit JsonVal)
    (registry : String → Option (List (String × JsonVal) → String))
    (n s n' s' : String) (argFields : List (String × JsonVal))
    (fn : List (String × JsonVal) → String)
    (h1 : jsonLoads s = .ok (.obj argFields)) (h2 : registry n = some fn)
    (h3 : jsonLoads s' = .error ()) :
    handle_tool_call jsonLoads registry
        (.obj [("function", .obj [("name", .str n), ("arguments", .str s)])]) =
        (.error .typeError, [⟨n, argFields⟩]) ∧
      handle_tool_call jsonLoads registry
        (.obj [("function", .obj [("name", .str n'), ("arguments", .str s')])]) =
        (.error .jsonDecodeError, []) := by
  constructor
  · simp [handle_tool_call, histLookup, h1, h2]
  · simp [handle_tool_call, histLookup, h3]

/-- C9 witness: a concrete loader that parses `"wellformed"` to the empty object
and rejects `"not json"`, with a registry holding one tool. -/
theorem c9_parse_before_use_witness :
    ((fun s : String => if s = "wellformed" then Except.ok (JsonVal.obj []) else .error ()) "wellformed"
        = .ok (.obj [])) ∧
      ((fun m : String => if m = "hass_turn_on"
          then some (fun _ : List (String × JsonVal) => "ok") else none) "hass_turn_on"
        ≠ none) ∧
      ((fun s : String => if s = "wellformed" then Except.ok (JsonVal.obj []) else .error ()) "not json"
        = .error ()) ∧
      handle_tool_call
        (fun s => if s = "wellformed" then Except.ok (JsonVal.obj []) else .error ())
        (fun m => if m = "hass_turn_on"
          then some (fun _ : List (String × JsonVal) => "ok") else none)
        (.obj [("function", .obj [("name", .str "hass_turn_on"),
          ("arguments", .str "wellformed")])]) =
        (.error .typeError, [⟨"hass_turn_on", []⟩]) ∧
      handle_tool_call
        (fun s => if s = "wellformed" then Except.ok (JsonVal.obj []) else .error ())
        (fun m => if m = "hass_turn_on"
          then some (fun _ : List (String × JsonVal) => "ok") else none)
        (.obj [("function", .obj [("name", .str "other_tool"),
          ("arguments", .str "not json")])]) =
        (.error .jsonDecodeError, []) :=
  ⟨rfl, by simp, rfl,
    (c9_parse_before_use
      (fun s => if s = "wellformed" then Except.ok (JsonVal.obj []) else .error ())
      (fun m => if m = "hass_turn_on"
        then some (fun _ : List (String × JsonVal) => "ok") else none)
      "hass_turn_on" "wellformed" "other_tool" "not json" [] (fun _ => "ok")
      rfl rfl rfl).1,
    (c9_parse_before_use
      (fun s => if s = "wellformed" then Except.ok (JsonVal.obj []) else .error ())
      (fun m => if m = "hass_turn_on"
        then some (fun _ : List (String × JsonVal) => "ok") else none)
      "hass_turn_on" "wellformed" "other_tool" "not json" [] (fun _ => "ok")
      rfl rfl rfl).2⟩

theorem countAssistant_user (t : String) : countAssistant [user_message t] = 0 := rfl

theorem countAssistant_system (p : String) : countAssistant [system_message p] = 0 := rfl

theorem countAssistant_assistant (v : JsonVal) : countAssistant [assistant_message v] = 1 := rfl

/-- Reduction of `async_process` on a tool-call-free response for a fresh
conversation id (absent, or supplied but unknown). -/
theorem async_process_plain_fresh (p text genUlid : String)
    (msgFields : List (String × JsonVal)) (rest : List (Except ApiError JsonVal))
    (history : List (String × List HaMsg)) (convIdIn : Option String)
    (hin : convIdIn = none ∨ ∃ c, convIdIn = some c ∧ histLookup history c = none)
    (ht : histLookup msgFields "tool_calls" = none) :
    async_process (.ok p) (.ok (.obj [("message", .obj msgFields)]) :: rest)
        genUlid history convIdIn text =
      ⟨.ok ⟨.speech ((histLookup msgFields "content").getD (.str "")), genUlid⟩,
        histInsert history genUlid
          (([] ++ [system_message p]) ++ [user_message text] ++
            [assistant_message ((histLookup msgFields "content").getD (.str ""))]), 1⟩ := by
  rcases hin with hin | ⟨c, hin, hc⟩
  · subst hin
    simp [async_process, histLookup, ht]
  · subst hin
    simp [async_process, histLookup, hc, ht]

/-- Reduction of `async_process` on a tool-call-free response for a known
conversation id with stored messages `old`. -/
theorem async_process_plain_known (p text genUlid c : String)
    (msgFields : List (String × JsonVal)) (rest : List (Except ApiError JsonVal))
    (history : List (String × List HaMsg)) (old : List HaMsg)
    (hc : histLookup history c = some old)
    (ht : histLookup msgFields "tool_calls" = none) :
    async_process (.ok p) (.ok (.obj [("message", .obj msgFields)]) :: rest)
        genUlid history (some c) text =
      ⟨.ok ⟨.speech ((histLookup msgFields "content").getD (.str "")), c⟩,
        histInsert history c
          ((if old.isEmpty then old ++ [system_message p] else old) ++ [user_message text] ++
            [assistant_message ((histLookup msgFields "content").getD (.str ""))]), 1⟩ := by
  cases old with
  | nil => simp [async_process, histLookup, hc, ht]
  | cons m0 old' => simp [async_process, histLookup, hc, ht]

/-- C7: for a turn whose model response is plain text (no `tool_calls`),
exactly one new assistant message is appended to the persisted session
history, and the returned conversation id is the supplied one when it
was known, or the freshly generated (non-empty, unused) ULID when the
supplied id was absent or unknown (agent.py:112-127, 194-202).
`hfresh` models freshness of the generated token; `hg` that the ULID is
a non-empty string. -/
theorem c7_plain_text_turn (p text genUlid : String)
    (msgFields : List (String × JsonVal)) (rest : List (Except ApiError JsonVal))
    (history : List (String × List HaMsg)) (convIdIn : Option String)
    (hg : genUlid ≠ "") (hfresh : histLookup history genUlid = none)
    (ht : histLookup msgFields "tool_calls" = none) :
    ∃ cid,
      (async_process (.ok p) (.ok (.obj [("message", .obj msgFields)]) :: rest)
          genUlid history convIdIn text).result =
        .ok ⟨.speech ((histLookup msgFields "content").getD (.str "")), cid⟩ ∧
      ((∃ c old, convIdIn = some c ∧ histLookup history c = some old ∧ cid = c) ∨
        (cid = genUlid ∧ cid ≠ "" ∧
          (convIdIn = none ∨ ∃ c, convIdIn = some c ∧ histLookup history c = none))) ∧
      countAssistant
          ((histLookup (async_process (.ok p)
              (.ok (.obj [("message", .obj msgFields)]) :: rest)
              genUlid history convIdIn text).history cid).getD []) =
        countAssistant ((histLookup history cid).getD []) + 1 := by
  cases convIdIn with
  | none =>
    refine ⟨genUlid, ?_, Or.inr ⟨rfl, hg, Or.inl rfl⟩, ?_⟩
    · rw [async_process_plain_fresh p text genUlid msgFields rest history none
        (Or.inl rfl) ht]
    · rw [async_process_plain_fresh p text genUlid msgFields rest history none
        (Or.inl rfl) ht]
      simp only [histLookup_insert_self, Option.getD_some, hfresh, Option.getD_none]
      rw [countAssistant_append, countAssistant_append, countAssistant_append]
      rfl
  | some c =>
    cases hc : histLookup history c with
    | none =>
      refine ⟨genUlid, ?_, Or.inr ⟨rfl, hg, Or.inr ⟨c, rfl, hc⟩⟩, ?_⟩
      · rw [async_process_plain_fresh p text genUlid msgFields rest history (some c)
          (Or.inr ⟨c, rfl, hc⟩) ht]
      · rw [async_process_plain_fresh p text genUlid msgFields rest history (some c)
          (Or.inr ⟨c, rfl, hc⟩) ht]
        simp only [histLookup_insert_self, Option.getD_some, hfresh, Option.getD_none]
        rw [countAssistant_append, countAssistant_append, countAssistant_append]
        rfl
    | some old =>
      refine ⟨c, ?_, Or.inl ⟨c, old, rfl, hc, rfl⟩, ?_⟩
      · rw [async_process_plain_known p text genUlid c msgFields rest history old hc ht]
      · rw [async_process_plain_known p text genUlid c msgFields rest history old hc ht]
        simp only [histLookup_insert_self, Option.getD_some, hc]
        rw [countAssistant_append, countAssistant_append]
        rw [countAssistant_user, countAssistant_assistant]
        cases old with
        | nil => rfl
        | cons m0 old' => simp [List.isEmpty]

/-- C7 witness: a concrete fresh-session plain-text turn. -/
theorem c7_plain_text_turn_witness :
    ("01TESTULID" : String) ≠ "" ∧
      histLookup ([] : List (String × List HaMsg)) "01TESTULID" = none ∧
      histLookup [("content", JsonVal.str "hi")] "tool_calls" = none ∧
      ∃ cid,
        (async_process (.ok "sys")
            (.ok (.obj [("message", .obj [("content", .str "hi")])]) :: [])
            "01TESTULID" [] none "hello").result =
          .ok ⟨.speech ((histLookup [("content", JsonVal.str "hi")] "content").getD (.str "")),
            cid⟩ ∧
        ((∃ c old, (none : Option String) = some c ∧
            histLookup ([] : List (String × List HaMsg)) c = some old ∧ cid = c) ∨
          (cid = "01TESTULID" ∧ cid ≠ "" ∧
            ((none : Option String) = none ∨ ∃ c, (none : Option String) = some c ∧
              histLookup ([] : List (String × List HaMsg)) c = none))) ∧
        countAssistant
            ((histLookup (async_process (.ok "sys")
                (.ok (.obj [("message", .obj [("content", .str "hi")])]) :: [])
                "01TESTULID" [] none "hello").history cid).getD []) =
          countAssistant ((histLookup ([] : List (String × List HaMsg)) cid).getD []) + 1 :=
  ⟨by decide, rfl, rfl,
    c7_plain_text_turn "sys" "hello" "01TESTULID" [("content", .str "hi")] [] [] none
      (by decide) rfl rfl⟩

/-- Reduction of `async_process` when the LLM client call raises, for a
fresh conversation id: the error result is returned and the history map
is untouched. -/
theorem async_process_api_error_fresh (p text genUlid : String) (err : ApiError)
    (rest : List (Except ApiError JsonVal))
    (history : List (String × List HaMsg)) (convIdIn : Option String)
    (hin : convIdIn = none ∨ ∃ c, convIdIn = some c ∧ histLookup history c = none) :
    async_process (.ok p) (.error err :: rest) genUlid history convIdIn text =
      ⟨.ok ⟨.errorText (match err with
          | ApiError.clientError => haErrorText
          | _ => apiErrorText), genUlid⟩, history, 1⟩ := by
  rcases hin with hin | ⟨c, hin, hc⟩
  · subst hin
    simp [async_process]
  · subst hin
    simp [async_process, hc]

/-- Reduction of `async_process` when the LLM client call raises, for a
known conversation id: only the pre-call appends (the user message, plus
the system message when the stored list was empty) reach the stored
list, through Python list aliasing. -/
theorem async_process_api_error_known (p text genUlid c : String) (err : ApiError)
    (rest : List (Except ApiError JsonVal))
    (history : List (String × List HaMsg)) (old : List HaMsg)
    (hc : histLookup history c = some old) :
    async_process (.ok p) (.error err :: rest) genUlid history (some c) text =
      ⟨.ok ⟨.errorText (match err with
          | ApiError.clientError => haErrorText
          | _ => apiErrorText), c⟩,
        histInsert history c
          ((if old.isEmpty then old ++ [system_message p] else old) ++
            [user_message text]), 1⟩ := by
  cases old with
  | nil => simp [async_process, hc]
  | cons m0 old' => simp [async_process, hc]

/-- C5: when the LLM client call fails with a transport, timeout,
protocol or generic client error, the turn aborts with one of the two
fixed apology texts (agent.py:89-94, 216-238), exactly one submission
was made, and the persisted history of every session is either unchanged
or extended only by the messages already appended before the failing
call (the user message, preceded by the system message when the stored
history was empty). -/
theorem c5_api_error_aborts (p text genUlid : String) (err : ApiError)
    (rest : List (Except ApiError JsonVal)) (history : List (String × List HaMsg))
    (convIdIn : Option String) :
    (∃ t cid,
        (async_process (.ok p) (.error err :: rest) genUlid history convIdIn text).result =
          .ok ⟨.errorText t, cid⟩ ∧ (t = apiErrorText ∨ t = haErrorText)) ∧
      (async_process (.ok p) (.error err :: rest) genUlid history convIdIn text).submissions
        = 1 ∧
      ∀ id : String,
        histLookup (async_process (.ok p) (.error err :: rest) genUlid history
            convIdIn text).history id = histLookup history id ∨
        ∃ old, histLookup history id = some old ∧
          histLookup (async_process (.ok p) (.error err :: rest) genUlid history
              convIdIn text).history id =
            some (old ++ (if old.isEmpty then [system_message p, user_message text]
              else [user_message text])) := by
  have htxt : ∀ t, t = (match err with
      | ApiError.clientError => haErrorText
      | _ => apiErrorText) → (t = apiErrorText ∨ t = haErrorText) := by
    intro t h
    cases err <;> simp [h]
  cases convIdIn with
  | none =>
    rw [async_process_api_error_fresh p text genUlid err rest history none (Or.inl rfl)]
    exact ⟨⟨_, genUlid, rfl, htxt _ rfl⟩, rfl, fun id => Or.inl rfl⟩
  | some c =>
    cases hc : histLookup history c with
    | none =>
      rw [async_process_api_error_fresh p text genUlid err rest history (some c)
        (Or.inr ⟨c, rfl, hc⟩)]
      exact ⟨⟨_, genUlid, rfl, htxt _ rfl⟩, rfl, fun id => Or.inl rfl⟩
    | some old =>
      rw [async_process_api_error_known p text genUlid c err rest history old hc]
      refine ⟨⟨_, c, rfl, htxt _ rfl⟩, rfl, ?_⟩
      intro id
      by_cases hid : id = c
      · subst hid
        refine Or.inr ⟨old, hc, ?_⟩
        rw [histLookup_insert_self]
        cases old with
        | nil => simp
        | cons m0 old' => simp [List.isEmpty]
      · exact Or.inl (histLookup_insert_ne history c id _ hid)
